import Mathlib

/-!
Verification of `async_upnp_client/profiles/dlna.py` (DLNA DMR profile).

The Python source is shallowly embedded: each relevant method body is
translated into an executable Lean definition over explicit inputs
(state-variable lookup results, device capability records, probe results).
Python dictionaries are modelled as insertion-ordered association lists,
Python truthiness (`x or d`, `if not x`) via explicit helper functions,
and the SAX content handler as a fold over a stream of parser events.
-/

namespace AsyncUpnpDlna

/-! ## Python semantics helpers -/

/-- Python `x or d` for an optional string: `None` and `""` are falsy. -/
def pyOrStr (v : Option String) (d : String) : String :=
  match v with
  | none => d
  | some s => if s = "" then d else s

/-- Python `not x` for an optional string: true on `None` and `""`. -/
def pyNotStr (v : Option String) : Bool :=
  match v with
  | none => true
  | some s => s = ""

/-- ASCII whitespace, as stripped by Python `str.strip()`. -/
def pyWhitespace (c : Char) : Bool :=
  c = ' ' || c = '\t' || c = '\n' || c = '\r' || c = Char.ofNat 11 || c = Char.ofNat 12

/-- Python `str.strip()`. -/
def pyStrip (s : String) : String :=
  ⟨((s.data.dropWhile pyWhitespace).reverse.dropWhile pyWhitespace).reverse⟩

/-- Python `str.upper()` (ASCII). -/
def pyUpper (s : String) : String :=
  ⟨s.data.map Char.toUpper⟩

/-- Python `str.lower()` (ASCII). -/
def pyLower (s : String) : String :=
  ⟨s.data.map Char.toLower⟩

def pySplitChars (sep : Char) (l : List Char) : List (List Char) :=
  l.foldr
    (fun c acc =>
      match acc with
      | [] => [[c]]
      | g :: gs => if c = sep then [] :: g :: gs else (c :: g) :: gs)
    [[]]

/-- Python `str.split(sep)` for a single-character separator
(`"".split(sep) = [""]`, empty groups kept). -/
def pySplit (s : String) (sep : Char) : List String :=
  (pySplitChars sep s.data).map fun l => ⟨l⟩

/-- Python `sub in s` for a single character. -/
def pyContainsChar (s : String) (c : Char) : Bool :=
  s.data.contains c

/-- Python `s.startswith(pre)`. -/
def pyStartsWith (s pre : String) : Bool :=
  pre.data.isPrefixOf s.data

/-! ## Python dictionaries as insertion-ordered association lists -/

/-- Inner per-instance dictionary: state-variable name to value. -/
abbrev VarDict := List (String × String)

/-- The `changes` dictionary: instance id to per-variable dictionary. -/
abbrev Changes := List (String × VarDict)

/-- Python `k in d`. -/
def dictContains {α : Type} (d : List (String × α)) (k : String) : Bool :=
  d.any fun p => p.1 = k

/-- Python `d.get(k)` / `d[k]` as an option. -/
def dictGet? {α : Type} (d : List (String × α)) (k : String) : Option α :=
  (d.find? fun p => p.1 = k).map fun p => p.2

/-- Python `d[k] = v`: overwrite in place, else append (insertion order). -/
def dictInsert (d : VarDict) (k v : String) : VarDict :=
  if dictContains d k then d.map fun p => if p.1 = k then (k, v) else p
  else d ++ [(k, v)]

/-- `changes[ci][name] = val`, for an instance key `ci` already present. -/
def changesSet (cs : Changes) (ci name val : String) : Changes :=
  cs.map fun p => if p.1 = ci then (p.1, dictInsert p.2 name val) else p

/-! ## Change Decoder: `DlnaDmrEventContentHandler` and
`_parse_last_change_event` (dlna.py lines 110-172)

The SAX tokenizer (`defusedxml.sax.parseString`) is external; the handler is
embedded as a fold over the stream of `startElement`/`endElement` events it
produces for a well-formed payload. -/

/-- The attributes of a parsed element, as read by the handler
(`attrs.get("val")`, `attrs.get("channel")`). -/
structure Attrs where
  val : Option String
  channel : Option String
deriving DecidableEq

inductive SaxEvent
  | startEl (name : String) (attrs : Attrs)
  | endEl (name : String)
deriving DecidableEq

structure HandlerState where
  changes : Changes
  currentInstance : Option String
deriving DecidableEq

/-- `attrs.get("channel") not in (None, "Master")` is the *skipped* case;
this predicate is the kept (Master/absent channel) case. -/
def allowedChannel (c : Option String) : Bool :=
  c = none || c = some "Master"

/-- Strip the namespace prefix: `name[name.find(":") + 1:]` when `":" in name`. -/
def dropThroughColon : List Char → List Char
  | [] => []
  | c :: cs => if c = ':' then cs else dropThroughColon cs

def stripNs (name : String) : String :=
  if pyContainsChar name ':' then ⟨dropThroughColon name.data⟩ else name

/-- `DlnaDmrEventContentHandler.startElement`. -/
def startElement (st : HandlerState) (name : String) (attrs : Attrs) : HandlerState :=
  match attrs.val with
  | none => st
  | some v =>
    if name = "InstanceID" then { st with currentInstance := some v }
    else
      let currentInstance := pyOrStr st.currentInstance "0"
      let changes :=
        if dictContains st.changes currentInstance then st.changes
        else st.changes ++ [(currentInstance, [])]
      if allowedChannel attrs.channel then
        { st with changes := changesSet changes currentInstance (stripNs name) v }
      else
        { st with changes := changes }

/-- `DlnaDmrEventContentHandler.endElement`. -/
def endElement (st : HandlerState) (name : String) : HandlerState :=
  if name = "InstanceID" then { st with currentInstance := none } else st

def handleEvent (st : HandlerState) : SaxEvent → HandlerState
  | .startEl n a => startElement st n a
  | .endEl n => endElement st n

def runEvents : HandlerState → List SaxEvent → HandlerState
  | st, [] => st
  | st, e :: evs => runEvents (handleEvent st e) evs

/-- `_parse_last_change_event`: run the handler on the event stream of the
payload and return its `changes` dictionary. -/
def parse_last_change_event (evs : List SaxEvent) : Changes :=
  (runEvents ⟨[], none⟩ evs).changes

/-! ### Well-formed single-instance payloads (claim C1) -/

/-- A variable element of the payload: local-or-prefixed name, `val`
attribute, optional `channel` attribute. -/
structure VarEl where
  name : String
  val : String
  channel : Option String
deriving DecidableEq

def varElEvents (v : VarEl) : List SaxEvent :=
  [.startEl v.name ⟨some v.val, v.channel⟩, .endEl v.name]

def varsEvents : List VarEl → List SaxEvent
  | [] => []
  | v :: vs => varElEvents v ++ varsEvents vs

/-- The event stream of a well-formed batched payload with a single
`InstanceID` scope of val `"0"` wrapping the given variable elements. -/
def lastChangePayload (vs : List VarEl) : List SaxEvent :=
  [.startEl "Event" ⟨none, none⟩, .startEl "InstanceID" ⟨some "0", none⟩]
    ++ varsEvents vs ++ [.endEl "InstanceID", .endEl "Event"]

/-- One handler step on a variable element, seen on the inner dictionary. -/
def innerStep (d : VarDict) (v : VarEl) : VarDict :=
  if allowedChannel v.channel then dictInsert d (stripNs v.name) v.val else d

def innerFold (d : VarDict) : List VarEl → VarDict
  | [] => d
  | v :: vs => innerFold (innerStep d v) vs

/-- The entry contributed by a (kept) variable element. -/
def entryOf (v : VarEl) : String × String := (stripNs v.name, v.val)

/-! ### Decoder lemmas -/

lemma endElement_ne (st : HandlerState) (name : String) (h : name ≠ "InstanceID") :
    endElement st name = st := by
  simp [endElement, h]

lemma startElement_var (d : VarDict) (name val : String) (ch : Option String)
    (h : name ≠ "InstanceID") :
    startElement ⟨[("0", d)], some "0"⟩ name ⟨some val, ch⟩ =
      ⟨[("0", if allowedChannel ch then dictInsert d (stripNs name) val else d)],
        some "0"⟩ := by
  simp only [startElement, pyOrStr, if_neg h]
  have hor : (if ("0" : String) = "" then "0" else "0") = "0" := by simp
  have hc : dictContains [(("0" : String), d)] "0" = true := by
    simp [dictContains]
  by_cases hch : allowedChannel ch = true <;>
    simp [hor, hc, hch, changesSet, dictContains]

lemma startElement_var_empty (name val : String) (ch : Option String)
    (h : name ≠ "InstanceID") :
    startElement ⟨[], some "0"⟩ name ⟨some val, ch⟩ =
      ⟨[("0", innerStep [] ⟨name, val, ch⟩)], some "0"⟩ := by
  simp only [startElement, pyOrStr, if_neg h, innerStep]
  have hc : dictContains ([] : Changes) "0" = false := by simp [dictContains]
  by_cases hch : allowedChannel ch = true <;>
    simp [hc, hch, changesSet, dictContains, dictInsert]

lemma runEvents_append (st : HandlerState) (evs₁ evs₂ : List SaxEvent) :
    runEvents st (evs₁ ++ evs₂) = runEvents (runEvents st evs₁) evs₂ := by
  induction evs₁ generalizing st with
  | nil => rfl
  | cons e evs ih => simp [runEvents, ih]

lemma runEvents_vars (vs : List VarEl) (d : VarDict)
    (h : ∀ v ∈ vs, v.name ≠ "InstanceID") :
    runEvents ⟨[("0", d)], some "0"⟩ (varsEvents vs) =
      ⟨[("0", innerFold d vs)], some "0"⟩ := by
  induction vs generalizing d with
  | nil => rfl
  | cons v vs ih =>
    have hv : v.name ≠ "InstanceID" := h v (by simp)
    have hrest : ∀ w ∈ vs, w.name ≠ "InstanceID" := fun w hw => h w (by simp [hw])
    have hstep : runEvents ⟨[("0", d)], some "0"⟩ (varElEvents v) =
        ⟨[("0", innerStep d v)], some "0"⟩ := by
      simp [varElEvents, runEvents, handleEvent, startElement_var d v.name v.val v.channel hv,
        endElement_ne _ _ hv, innerStep]
    calc runEvents ⟨[("0", d)], some "0"⟩ (varsEvents (v :: vs))
        = runEvents (runEvents ⟨[("0", d)], some "0"⟩ (varElEvents v)) (varsEvents vs) := by
          rw [show varsEvents (v :: vs) = varElEvents v ++ varsEvents vs from rfl,
            runEvents_append]
      _ = runEvents ⟨[("0", innerStep d v)], some "0"⟩ (varsEvents vs) := by rw [hstep]
      _ = ⟨[("0", innerFold (innerStep d v) vs)], some "0"⟩ := ih _ hrest
      _ = ⟨[("0", innerFold d (v :: vs))], some "0"⟩ := rfl

lemma dictContains_append {α : Type} (d₁ d₂ : List (String × α)) (k : String) :
    dictContains (d₁ ++ d₂) k = (dictContains d₁ k || dictContains d₂ k) := by
  simp [dictContains, List.any_append]

lemma dictInsert_fresh (d : VarDict) (k v : String) (h : dictContains d k = false) :
    dictInsert d k v = d ++ [(k, v)] := by
  simp [dictInsert, h]

lemma innerFold_eq (vs : List VarEl) (d : VarDict)
    (hfresh : ∀ v ∈ vs, allowedChannel v.channel = true →
      dictContains d (stripNs v.name) = false)
    (hnodup : ((vs.filter fun v => allowedChannel v.channel).map
      fun v => stripNs v.name).Nodup) :
    innerFold d vs = d ++ (vs.filter fun v => allowedChannel v.channel).map entryOf := by
  induction vs generalizing d with
  | nil => simp [innerFold]
  | cons v vs ih =>
    by_cases hv : allowedChannel v.channel = true
    · have hk : dictContains d (stripNs v.name) = false := hfresh v (by simp) hv
      have hfilter : (v :: vs).filter (fun v => allowedChannel v.channel) =
          v :: vs.filter fun v => allowedChannel v.channel :=
        List.filter_cons_of_pos hv
      rw [hfilter] at hnodup
      simp only [List.map_cons, List.nodup_cons] at hnodup
      obtain ⟨hnotin, hnodup'⟩ := hnodup
      have hfresh' : ∀ w ∈ vs, allowedChannel w.channel = true →
          dictContains (d ++ [(stripNs v.name, v.val)]) (stripNs w.name) = false := by
        intro w hw hwch
        rw [dictContains_append]
        have h1 : dictContains d (stripNs w.name) = false := hfresh w (by simp [hw]) hwch
        have h2 : stripNs v.name ≠ stripNs w.name := by
          intro hcontra
          exact hnotin (hcontra ▸ List.mem_map_of_mem _ (List.mem_filter.mpr ⟨hw, hwch⟩))
        have h3 : dictContains [(stripNs v.name, v.val)] (stripNs w.name) = false := by
          simp [dictContains, h2]
        rw [h1, h3]
        rfl
      calc innerFold d (v :: vs) = innerFold (dictInsert d (stripNs v.name) v.val) vs := by
            simp [innerFold, innerStep, hv]
        _ = innerFold (d ++ [(stripNs v.name, v.val)]) vs := by rw [dictInsert_fresh _ _ _ hk]
        _ = (d ++ [(stripNs v.name, v.val)]) ++
              (vs.filter fun v => allowedChannel v.channel).map entryOf := ih _ hfresh' hnodup'
        _ = d ++ ((v :: vs).filter fun v => allowedChannel v.channel).map entryOf := by
            rw [hfilter]
            simp [entryOf]
    · have hv' : allowedChannel v.channel = false := by
        simpa using hv
      have hfilter : (v :: vs).filter (fun v => allowedChannel v.channel) =
          vs.filter fun v => allowedChannel v.channel :=
        List.filter_cons_of_neg (by simp [hv'])
      rw [hfilter] at hnodup
      have hfresh' : ∀ w ∈ vs, allowedChannel w.channel = true →
          dictContains d (stripNs w.name) = false := fun w hw => hfresh w (by simp [hw])
      calc innerFold d (v :: vs) = innerFold d vs := by simp [innerFold, innerStep, hv']
        _ = d ++ (vs.filter fun v => allowedChannel v.channel).map entryOf :=
            ih _ hfresh' hnodup
        _ = d ++ ((v :: vs).filter fun v => allowedChannel v.channel).map entryOf := by
            rw [hfilter]

lemma length_filter_lt_of_exists_neg {α : Type} (p : α → Bool) (l : List α)
    (h : ∃ x ∈ l, p x = false) : (l.filter p).length < l.length := by
  induction l with
  | nil => simp at h
  | cons a l ih =>
    by_cases ha : p a = true
    · obtain ⟨x, hx, hpx⟩ := h
      rcases List.mem_cons.mp hx with rfl | hx'
      · rw [ha] at hpx; cases hpx
      · have := ih ⟨x, hx', hpx⟩
        rw [List.filter_cons_of_pos ha]
        simpa using this
    · have := List.length_filter_le p l
      rw [List.filter_cons_of_neg (by simpa using ha)]
      simp
      omega

lemma parse_last_change_eq_innerFold (vs : List VarEl)
    (hne : vs ≠ [])
    (hnames : ∀ v ∈ vs, v.name ≠ "InstanceID") :
    parse_last_change_event (lastChangePayload vs) = [("0", innerFold [] vs)] := by
  cases vs with
  | nil => exact absurd rfl hne
  | cons v vs =>
    have hv : v.name ≠ "InstanceID" := hnames v (by simp)
    have hrest : ∀ w ∈ vs, w.name ≠ "InstanceID" := fun w hw => hnames w (by simp [hw])
    have hopen : runEvents ⟨[], none⟩
        [.startEl "Event" ⟨none, none⟩, .startEl "InstanceID" ⟨some "0", none⟩] =
        ⟨[], some "0"⟩ := rfl
    have hfirst : runEvents ⟨[], some "0"⟩ (varElEvents v) =
        ⟨[("0", innerStep [] v)], some "0"⟩ := by
      simp [varElEvents, runEvents, handleEvent,
        startElement_var_empty v.name v.val v.channel hv, endElement_ne _ _ hv]
    have hmid : runEvents ⟨[], some "0"⟩ (varsEvents (v :: vs)) =
        ⟨[("0", innerFold [] (v :: vs))], some "0"⟩ := by
      rw [show varsEvents (v :: vs) = varElEvents v ++ varsEvents vs from rfl,
        runEvents_append, hfirst, runEvents_vars vs _ hrest]
      rfl
    have hclose : ∀ cs : Changes, runEvents ⟨cs, some "0"⟩
        [.endEl "InstanceID", .endEl "Event"] = ⟨cs, none⟩ := by
      intro cs
      simp [runEvents, handleEvent, endElement]
    calc parse_last_change_event (lastChangePayload (v :: vs))
        = (runEvents ⟨[], none⟩ (lastChangePayload (v :: vs))).changes := rfl
      _ = [("0", innerFold [] (v :: vs))] := by
          rw [show lastChangePayload (v :: vs) =
            [.startEl "Event" ⟨none, none⟩, .startEl "InstanceID" ⟨some "0", none⟩]
              ++ (varsEvents (v :: vs) ++ [.endEl "InstanceID", .endEl "Event"]) from by
              simp [lastChangePayload],
            runEvents_append, hopen, runEvents_append, hmid, hclose]

/-- **C1.** For every well-formed batched LastChange payload with a single
`InstanceID` scope of val `"0"` wrapping `N` variable elements that each
carry a `val` attribute (with pairwise-distinct stripped local names),
`_parse_last_change_event` returns a mapping with exactly one key `"0"`;
its value has one entry per element whose `channel` attribute is absent or
`"Master"`, keyed by the element's local name with any namespace prefix
stripped; that is `N` entries when every channel is absent/`"Master"`, and
strictly fewer than `N` when some element carries another channel value. -/
theorem parse_last_change_single_instance_scope (vs : List VarEl)
    (hne : vs ≠ [])
    (hnames : ∀ v ∈ vs, v.name ≠ "InstanceID")
    (hnodup : ((vs.filter fun v => allowedChannel v.channel).map
      fun v => stripNs v.name).Nodup) :
    parse_last_change_event (lastChangePayload vs) =
      [("0", (vs.filter fun v => allowedChannel v.channel).map entryOf)] ∧
    ((∀ v ∈ vs, allowedChannel v.channel = true) →
      ((vs.filter fun v => allowedChannel v.channel).map entryOf).length = vs.length) ∧
    ((∃ v ∈ vs, allowedChannel v.channel = false) →
      ((vs.filter fun v => allowedChannel v.channel).map entryOf).length < vs.length) := by
  refine ⟨?_, ?_, ?_⟩
  · rw [parse_last_change_eq_innerFold vs hne hnames,
      innerFold_eq vs [] (by intro v _ _; rfl) hnodup]
    rfl
  · intro hall
    rw [List.length_map, List.filter_eq_self.mpr hall]
  · intro hex
    rw [List.length_map]
    exact length_filter_lt_of_exists_neg _ _ hex

/-- Witness for C1: a three-element payload (one namespaced element, one
`Master`-channel element, one element on channel `"RF"`); the `"RF"` element
contributes no entry, so 2 of 3 elements survive. -/
theorem parse_last_change_single_instance_scope_witness :
    parse_last_change_event (lastChangePayload
        [⟨"ns:Var1", "a", none⟩, ⟨"Var2", "b", some "Master"⟩, ⟨"Var3", "c", some "RF"⟩]) =
      [("0", [("Var1", "a"), ("Var2", "b")])] ∧
    (2 : Nat) < 3 := by
  have h := parse_last_change_single_instance_scope
    [⟨"ns:Var1", "a", none⟩, ⟨"Var2", "b", some "Master"⟩, ⟨"Var3", "c", some "RF"⟩]
    (by decide) (by decide) (by decide)
  refine ⟨?_, by decide⟩
  rw [h.1]
  rfl

/-! ## State Reader: `TransportState` and `DmrDevice.transport_state`
(dlna.py lines 29-39 and 313-325) -/

/-- The closed `TransportState` enumeration. -/
inductive TransportState
  | STOPPED
  | PLAYING
  | TRANSITIONING
  | PAUSED_PLAYBACK
  | PAUSED_RECORDING
  | RECORDING
  | NO_MEDIA_PRESENT
  | VENDOR_DEFINED
deriving DecidableEq

/-- Python `TransportState[name]` (lookup by member name), as an option. -/
def TransportState.ofName : String → Option TransportState
  | "STOPPED" => some .STOPPED
  | "PLAYING" => some .PLAYING
  | "TRANSITIONING" => some .TRANSITIONING
  | "PAUSED_PLAYBACK" => some .PAUSED_PLAYBACK
  | "PAUSED_RECORDING" => some .PAUSED_RECORDING
  | "RECORDING" => some .RECORDING
  | "NO_MEDIA_PRESENT" => some .NO_MEDIA_PRESENT
  | "VENDOR_DEFINED" => some .VENDOR_DEFINED
  | _ => none

/-- A string-valued state variable, as returned by `_state_variable`
(only its `value` is read by the accessors modelled here). -/
structure StrStateVar where
  value : Option String
deriving DecidableEq

/-- `DmrDevice.transport_state`: `None` when the variable is absent,
otherwise look up `(value or "").strip().upper()` among the member names,
falling back to `VENDOR_DEFINED` on a `KeyError`. -/
def transport_state (sv : Option StrStateVar) : Option TransportState :=
  match sv with
  | none => none
  | some v =>
    let stateValue := pyUpper (pyStrip (pyOrStr v.value ""))
    match TransportState.ofName stateValue with
    | some t => some t
    | none => some TransportState.VENDOR_DEFINED

/-- **C2.** `transport_state` is total over raw string values: an absent
variable yields `none` (not `VENDOR_DEFINED`); a present value that, after
whitespace-stripping and upper-casing, names an enumeration member yields
that member (`"Playing"` and `" playing "` both yield `PLAYING`); any other
present value yields `VENDOR_DEFINED`, and no present value ever yields the
absent result. -/
theorem transport_state_total :
    transport_state none = none ∧
    (∀ s t, TransportState.ofName (pyUpper (pyStrip s)) = some t →
      transport_state (some ⟨some s⟩) = some t) ∧
    (∀ s, TransportState.ofName (pyUpper (pyStrip s)) = none →
      transport_state (some ⟨some s⟩) = some TransportState.VENDOR_DEFINED) ∧
    (∀ s, transport_state (some ⟨some s⟩) ≠ none) ∧
    transport_state (some ⟨some "Playing"⟩) = some TransportState.PLAYING ∧
    transport_state (some ⟨some " playing "⟩) = some TransportState.PLAYING := by
  refine ⟨rfl, ?_, ?_, ?_, by decide, by decide⟩
  · intro s t h
    have hne : pyOrStr (some s) "" = if s = "" then "" else s := rfl
    by_cases hs : s = ""
    · subst hs
      simp [pyStrip, pyUpper, pyOrStr] at h ⊢
      simp [transport_state, pyOrStr, pyStrip, pyUpper, h]
    · simp [transport_state, pyOrStr, hs, h]
  · intro s h
    by_cases hs : s = ""
    · subst hs
      simp [pyStrip, pyUpper, pyOrStr] at h ⊢
      simp [transport_state, pyOrStr, pyStrip, pyUpper, h]
    · simp [transport_state, pyOrStr, hs, h]
  · intro s
    simp only [transport_state]
    cases TransportState.ofName (pyUpper (pyStrip (pyOrStr (some s) ""))) <;> simp

/-- Witness for C2: `"stopped "` is recognized (maps to `STOPPED`), the
unknown value `"FOO"` maps to `VENDOR_DEFINED`. -/
theorem transport_state_total_witness :
    transport_state (some ⟨some "stopped "⟩) = some TransportState.STOPPED ∧
    transport_state (some ⟨some "FOO"⟩) = some TransportState.VENDOR_DEFINED := by
  exact ⟨transport_state_total.2.1 "stopped " TransportState.STOPPED (by decide),
    transport_state_total.2.2.1 "FOO" (by decide)⟩

/-! ## Action availability: `_has_current_transport_actions`,
`_current_transport_actions`, `_can_transport_action`, `has_*`/`can_*`
(dlna.py lines 327-346, 525-683) -/

/-- The `CurrentTransportActions` state variable: its `value` and
`updated_at` are the only fields read. -/
structure CtaStateVar where
  value : Option String
  updatedAt : Option Nat
deriving DecidableEq

/-- The AVT-side capabilities of a `DmrDevice` read by the transport
predicates and command methods: whether each `_action("AVT", name)` lookup
succeeds, the `CurrentTransportActions` variable lookup, and the
`allowed_values` of `A_ARG_TYPE_SeekMode` when that variable exists. -/
structure AvtDevice where
  ctaVar : Option CtaStateVar
  pauseAction : Bool
  playAction : Bool
  stopAction : Bool
  nextAction : Bool
  previousAction : Bool
  seekAction : Bool
  seekModeValues : Option (List String)
deriving DecidableEq

/-- `DmrDevice._has_current_transport_actions`. -/
def has_current_transport_actions (d : AvtDevice) : Bool :=
  match d.ctaVar with
  | none => false
  | some v => v.value.isSome || v.updatedAt.isSome

/-- `DmrDevice._current_transport_actions`. -/
def current_transport_actions (d : AvtDevice) : List String :=
  match d.ctaVar with
  | none => []
  | some v => (pySplit (pyOrStr v.value "") ',').map fun a => pyStrip (pyLower a)

/-- `DmrDevice._can_transport_action`. -/
def can_transport_action (d : AvtDevice) (action : String) : Bool :=
  (current_transport_actions d).contains action || !has_current_transport_actions d

def has_pause (d : AvtDevice) : Bool := d.pauseAction
def has_play (d : AvtDevice) : Bool := d.playAction
def has_stop (d : AvtDevice) : Bool := d.stopAction
def has_next (d : AvtDevice) : Bool := d.nextAction
def has_previous (d : AvtDevice) : Bool := d.previousAction

/-- `DmrDevice._has_seek_with_mode`. -/
def has_seek_with_mode (d : AvtDevice) (mode : String) : Bool :=
  match d.seekModeValues with
  | none => false
  | some vals =>
    d.seekAction && (vals.map fun m => pyStrip (pyLower m)).contains (pyLower mode)

def has_seek_abs_time (d : AvtDevice) : Bool := has_seek_with_mode d "ABS_TIME"
def has_seek_rel_time (d : AvtDevice) : Bool := has_seek_with_mode d "REL_TIME"

def can_pause (d : AvtDevice) : Bool := has_pause d && can_transport_action d "pause"
def can_play (d : AvtDevice) : Bool := has_play d && can_transport_action d "play"
def can_stop (d : AvtDevice) : Bool := has_stop d && can_transport_action d "stop"
def can_next (d : AvtDevice) : Bool := has_next d && can_transport_action d "next"
def can_previous (d : AvtDevice) : Bool :=
  has_previous d && can_transport_action d "previous"
def can_seek_abs_time (d : AvtDevice) : Bool :=
  has_seek_abs_time d && can_transport_action d "seek"
def can_seek_rel_time (d : AvtDevice) : Bool :=
  has_seek_rel_time d && can_transport_action d "seek"

lemma can_transport_action_iff (d : AvtDevice) (a : String) :
    can_transport_action d a = true ↔
      (has_current_transport_actions d = false ∨ a ∈ current_transport_actions d) := by
  simp only [can_transport_action, Bool.or_eq_true, Bool.not_eq_true',
    List.contains_iff_exists_mem_beq]
  constructor
  · rintro (⟨b, hb, hab⟩ | h)
    · exact Or.inr (by rwa [show a = b from by simpa using hab])
    · exact Or.inl h
  · rintro (h | h)
    · exact Or.inr h
    · exact Or.inl ⟨a, h, by simp⟩

/-- **C3.** Each transport `can_*` predicate holds iff the capability
(`has_*`) holds and the `CurrentTransportActions` variable is either not
published or lists the action's lower-cased name in its comma-separated
value; concretely, with list `"Play,Stop"`, `can_pause` is false and
`can_stop` holds whenever the Stop action exists, and with no
current-actions variable, `can_pause` equals `has_pause`. -/
theorem can_transport_actions_spec :
    (∀ d : AvtDevice,
      (can_pause d = true ↔ (has_pause d = true ∧
        (has_current_transport_actions d = false ∨
          "pause" ∈ current_transport_actions d))) ∧
      (can_play d = true ↔ (has_play d = true ∧
        (has_current_transport_actions d = false ∨
          "play" ∈ current_transport_actions d))) ∧
      (can_stop d = true ↔ (has_stop d = true ∧
        (has_current_transport_actions d = false ∨
          "stop" ∈ current_transport_actions d))) ∧
      (can_next d = true ↔ (has_next d = true ∧
        (has_current_transport_actions d = false ∨
          "next" ∈ current_transport_actions d))) ∧
      (can_previous d = true ↔ (has_previous d = true ∧
        (has_current_transport_actions d = false ∨
          "previous" ∈ current_transport_actions d))) ∧
      (can_seek_abs_time d = true ↔ (has_seek_abs_time d = true ∧
        (has_current_transport_actions d = false ∨
          "seek" ∈ current_transport_actions d))) ∧
      (can_seek_rel_time d = true ↔ (has_seek_rel_time d = true ∧
        (has_current_transport_actions d = false ∨
          "seek" ∈ current_transport_actions d)))) ∧
    (∀ d : AvtDevice, ∀ u : Option Nat, d.ctaVar = some ⟨some "Play,Stop", u⟩ →
      can_pause d = false ∧ (has_stop d = true → can_stop d = true)) ∧
    (∀ d : AvtDevice, d.ctaVar = none → can_pause d = has_pause d) := by
  refine ⟨?_, ?_, ?_⟩
  · intro d
    refine ⟨?_, ?_, ?_, ?_, ?_, ?_, ?_⟩ <;>
      simp [can_pause, can_play, can_stop, can_next, can_previous,
        can_seek_abs_time, can_seek_rel_time, Bool.and_eq_true,
        can_transport_action_iff]
  · intro d u h
    have hlist : current_transport_actions d = ["play", "stop"] := by
      simp [current_transport_actions, h, pyOrStr, pySplit, pySplitChars,
        pyLower, pyStrip]
      exact ⟨by decide, by decide⟩
    have hhas : has_current_transport_actions d = true := by
      simp [has_current_transport_actions, h]
    constructor
    · simp [can_pause, can_transport_action, hlist, hhas]
    · intro hs
      simp [can_stop, hs, can_transport_action, hlist, hhas]
  · intro d h
    simp [can_pause, can_transport_action, has_current_transport_actions, h,
      current_transport_actions, Bool.and_true]

/-- Witness for C3: a device exposing Pause and Stop with current-actions
list `"Play,Stop"` cannot pause but can stop; with no current-actions
variable it can pause. -/
theorem can_transport_actions_spec_witness :
    can_pause ⟨some ⟨some "Play,Stop", none⟩, true, true, true, true, true, true,
      some ["ABS_TIME"]⟩ = false ∧
    can_stop ⟨some ⟨some "Play,Stop", none⟩, true, true, true, true, true, true,
      some ["ABS_TIME"]⟩ = true ∧
    can_pause ⟨none, true, true, true, true, true, true, some ["ABS_TIME"]⟩ = true := by
  refine ⟨(can_transport_actions_spec.2.1 _ none rfl).1,
    (can_transport_actions_spec.2.1 _ none rfl).2 rfl,
    ?_⟩
  rw [can_transport_actions_spec.2.2 _ rfl]
  rfl

/-! ## Level controls: `DmrDevice._level` and `DmrDevice._async_set_level`
(dlna.py lines 354-386). Device numeric values are modelled as rationals;
Python `int()` truncates toward zero. -/

/-- Python `x or d` for an optional number: `None` and `0` are falsy. -/
def pyOrQ (v : Option ℚ) (d : ℚ) : ℚ :=
  match v with
  | none => d
  | some x => if x = 0 then d else x

/-- Python `int()` on a number: truncation toward zero. -/
def pyInt (q : ℚ) : ℤ :=
  if 0 ≤ q then ⌊q⌋ else ⌈q⌉

/-- A numeric level state variable: `value` and `max_value`. -/
structure LevelStateVar where
  value : Option ℚ
  maxValue : Option ℚ
deriving DecidableEq

/-- `DmrDevice._level`: error when the variable is missing, `None` when it
has no value, else `min(value / (max_value or 100.0), 1.0)`. -/
def level (sv : Option LevelStateVar) : Except String (Option ℚ) :=
  match sv with
  | none => .error "Missing StateVariable"
  | some v =>
    match v.value with
    | none => .ok none
    | some x => .ok (some (min (x / pyOrQ v.maxValue 100) 1))

/-- The device-native integer written by `DmrDevice._async_set_level`:
`int(min_ + level * (max_ - min_))` with `min_ = min_value or 0` and
`max_ = max_value or 100` taken from the related state variable. -/
def set_level_desired (minValue maxValue : Option ℚ) (lvl : ℚ) : ℤ :=
  pyInt (pyOrQ minValue 0 + lvl * (pyOrQ maxValue 100 - pyOrQ minValue 0))

lemma pyOrQ_some_zero_default (x : ℚ) : pyOrQ (some x) 0 = x := by
  by_cases h : x = 0 <;> simp [pyOrQ, h]

lemma pyOrQ_some_ne (x d : ℚ) (h : x ≠ 0) : pyOrQ (some x) d = x := by
  simp [pyOrQ, h]

lemma pyInt_bounds (lo hi : ℤ) (x : ℚ) (h1 : (lo : ℚ) ≤ x) (h2 : x ≤ hi) :
    lo ≤ pyInt x ∧ pyInt x ≤ hi := by
  unfold pyInt
  by_cases hx : 0 ≤ x
  · rw [if_pos hx]
    refine ⟨Int.le_floor.mpr h1, ?_⟩
    have : (⌊x⌋ : ℚ) ≤ hi := (Int.floor_le x).trans h2
    exact_mod_cast this
  · rw [if_neg hx]
    refine ⟨?_, Int.ceil_le.mpr h2⟩
    have : (lo : ℚ) ≤ ⌈x⌉ := h1.trans (Int.le_ceil x)
    exact_mod_cast this

/-- **C4 counterexample.** The claim's clamping statements fail on the code:
reading raw value `-50` against max `100` yields the fraction `-1/2`, which
is *not* clamped into `[0, 1]`; and writing fraction `2` with device bounds
`[0, 100]` produces `200`, which is *not* clamped into `[min, max]`. -/
theorem level_clamping_counterexample :
    level (some ⟨some (-50), some 100⟩) = .ok (some (-(1 : ℚ) / 2)) ∧
    (-(1 : ℚ) / 2) < 0 ∧
    set_level_desired (some 0) (some 100) 2 = 200 ∧
    (100 : ℤ) < 200 := by
  refine ⟨?_, by norm_num, ?_, by norm_num⟩
  · show Except.ok (some (min ((-50 : ℚ) / pyOrQ (some 100) 100) 1)) = _
    rw [pyOrQ_some_ne _ _ (by norm_num)]
    norm_num [min_def]
  · show pyInt (pyOrQ (some 0) 0 + 2 * (pyOrQ (some 100) 100 - pyOrQ (some 0) 0)) = 200
    rw [pyOrQ_some_zero_default, pyOrQ_some_ne _ _ (by norm_num)]
    norm_num [pyInt]

/-- **C4 (amended).** Writing fraction `f` sends the integer
`int(min + f*(max-min))`; for `f ∈ [0,1]` (and integer bounds `min ≤ max`,
`max ≠ 0`) that value lies in `[min, max]`, but no clamping is applied for
`f` outside `[0, 1]`. Reading maps raw `v` to `min(v / max, 1)` with `max`
defaulting to `100` when unpublished: the fraction is clamped from above to
`1` (even when raw exceeds max) and is nonnegative whenever raw is, but a
negative raw value yields a negative fraction. Concretely, writing `1/2`
with bounds `[0, 200]` writes `100`, and reading raw `100` with max `200`
yields `1/2`. -/
theorem level_linear_interpolation :
    (∀ (minV maxV : Option ℚ) (f : ℚ), set_level_desired minV maxV f =
      pyInt (pyOrQ minV 0 + f * (pyOrQ maxV 100 - pyOrQ minV 0))) ∧
    (∀ (lo hi : ℤ) (f : ℚ), 0 ≤ f → f ≤ 1 → lo ≤ hi → hi ≠ 0 →
      lo ≤ set_level_desired (some (lo : ℚ)) (some (hi : ℚ)) f ∧
      set_level_desired (some (lo : ℚ)) (some (hi : ℚ)) f ≤ hi) ∧
    (∀ (v : ℚ) (m : Option ℚ),
      level (some ⟨some v, m⟩) = .ok (some (min (v / pyOrQ m 100) 1))) ∧
    (∀ (v : ℚ) (m : Option ℚ), min (v / pyOrQ m 100) 1 ≤ 1 ∧
      (0 ≤ v → 0 < pyOrQ m 100 → 0 ≤ min (v / pyOrQ m 100) 1)) ∧
    set_level_desired (some 0) (some 200) (1 / 2) = 100 ∧
    level (some ⟨some 100, some 200⟩) = .ok (some (1 / 2)) ∧
    level (some ⟨some 150, some 100⟩) = .ok (some 1) := by
  refine ⟨fun _ _ _ => rfl, ?_, fun v m => rfl, ?_, ?_, ?_, ?_⟩
  · intro lo hi f hf0 hf1 hlohi hhi
    have hcast : ((hi : ℚ)) ≠ 0 := Int.cast_ne_zero.mpr hhi
    have hlo : pyOrQ (some (lo : ℚ)) 0 = (lo : ℚ) := pyOrQ_some_zero_default _
    have hhi100 : pyOrQ (some (hi : ℚ)) 100 = (hi : ℚ) := pyOrQ_some_ne _ _ hcast
    have hsub : (0 : ℚ) ≤ (hi : ℚ) - (lo : ℚ) := by
      have : (lo : ℚ) ≤ (hi : ℚ) := by exact_mod_cast hlohi
      linarith
    have hxlo : (lo : ℚ) ≤ (lo : ℚ) + f * ((hi : ℚ) - (lo : ℚ)) := by
      nlinarith
    have hxhi : (lo : ℚ) + f * ((hi : ℚ) - (lo : ℚ)) ≤ (hi : ℚ) := by
      nlinarith
    have := pyInt_bounds lo hi ((lo : ℚ) + f * ((hi : ℚ) - (lo : ℚ))) hxlo hxhi
    simpa [set_level_desired, hlo, hhi100] using this
  · intro v m
    refine ⟨min_le_right _ _, fun hv hm => ?_⟩
    exact le_min (div_nonneg hv hm.le) zero_le_one
  · show pyInt (pyOrQ (some 0) 0 + 1 / 2 * (pyOrQ (some 200) 100 - pyOrQ (some 0) 0)) = 100
    rw [pyOrQ_some_zero_default, pyOrQ_some_ne _ _ (by norm_num)]
    norm_num [pyInt]
  · show Except.ok (some (min ((100 : ℚ) / pyOrQ (some 200) 100) 1)) = _
    rw [pyOrQ_some_ne _ _ (by norm_num)]
    norm_num [min_def]
  · show Except.ok (some (min ((150 : ℚ) / pyOrQ (some 100) 100) 1)) = _
    rw [pyOrQ_some_ne _ _ (by norm_num)]
    norm_num [min_def]

/-- Witness for C4 (amended): writing `3/4` with bounds `[0, 200]` lands in
`[0, 200]` (concretely, the interpolation bounds applied at `lo = 0`,
`hi = 200`, `f = 3/4`). -/
theorem level_linear_interpolation_witness :
    (0 : ℤ) ≤ set_level_desired (some ((0 : ℤ) : ℚ)) (some ((200 : ℤ) : ℚ)) (3 / 4) ∧
    set_level_desired (some ((0 : ℤ) : ℚ)) (some ((200 : ℤ) : ℚ)) (3 / 4) ≤ 200 := by
  exact level_linear_interpolation.2.1 0 200 (3 / 4)
    (by norm_num) (by norm_num) (by norm_num) (by norm_num)

/-! ## Media Descriptor Builder: `construct_play_media_metadata`,
`async_get_protocol_info`, `_async_get_sink_protocol_info_for_mime_type`
(dlna.py lines 794-935)

External collaborators are parameters of the environment: the result of the
`_fetch_headers` probe (`None` both when it returns `None` and when it
raises, since the caller swallows exceptions), `mimetypes.guess_type`, the
`didl_lite.type_by_upnp_class` existence test, and the device's
`GetProtocolInfo` action with its raw `Source`/`Sink` result strings.
The construction of the DIDL item itself (title and extra metadata fields,
`didl_lite.to_xml_string`) is external and not modelled; the builder's
output is the data the claims are about: resolved mime type, feature
string, upnp class and the resource's protocol descriptor. -/

/-- Modelled from the spec: `MIME_TO_UPNP_CLASS_MAPPING` lives in
`async_upnp_client.const`, which is not part of the given sources. Per the
spec it is an ordered prefix table matching the lower-cased mime type
(`audio/` to the audio item class, `video/` to the video item class,
`image/` to the image item class), most specific class first. -/
def MIME_TO_UPNP_CLASS_MAPPING : List (String × String) :=
  [("audio/", "object.item.audioItem"),
   ("video/", "object.item.videoItem"),
   ("image/", "object.item.imageItem")]

structure BuilderEnv where
  fetchHeaders : Option (List (String × String))
  guessType : String → Option String
  typeByUpnpClass : String → Bool
  getProtocolInfoAction : Bool
  protocolInfoSource : String
  protocolInfoSink : String

/-- `DmrDevice.async_get_protocol_info`: `{"source": [], "sink": []}` when
the action is missing, else the `Source`/`Sink` results split on `","`. -/
def async_get_protocol_info (env : BuilderEnv) : List String × List String :=
  if env.getProtocolInfoAction = true then
    (pySplit env.protocolInfoSource ',', pySplit env.protocolInfoSink ',')
  else ([], [])

/-- `DmrDevice._async_get_sink_protocol_info_for_mime_type`. Note: despite
its name, the body filters `protocol_info["source"]`. Entries are assumed
well formed (at least three `:`-separated fields, as the Python indexing
`entry.split(":")[2]` requires). -/
def async_get_sink_protocol_info_for_mime_type (env : BuilderEnv)
    (mimeType : String) : List (List String) :=
  let source := (async_get_protocol_info env).1
  (source.filter fun entry =>
      pyContainsChar entry ':' && ((pySplit entry ':').getD 2 "" == mimeType)).map
    fun entry => pySplit entry ':'

/-- The data of the DIDL item built by `construct_play_media_metadata`:
resolved mime type and feature string, resolved upnp class, and the single
resource's protocol descriptor `http-get:*:<mime>:<features>`. -/
structure DidlMetadata where
  mimeType : String
  dlnaFeatures : String
  upnpClass : String
  protocolInfo : String
deriving DecidableEq

/-- `DmrDevice.construct_play_media_metadata` (meta_data/title fields not
modelled; the error is `didl_lite.type_by_upnp_class` yielding nothing). -/
def construct_play_media_metadata (env : BuilderEnv) (mediaUrl : String)
    (defaultMimeType defaultUpnpClass overrideMimeType overrideUpnpClass
      overrideDlnaFeatures : Option String) : Except String DidlMetadata :=
  let mimeType := pyOrStr overrideMimeType ""
  let upnpClass := pyOrStr overrideUpnpClass ""
  let dlnaFeatures := pyOrStr overrideDlnaFeatures "*"
  let probed :=
    if overrideMimeType = none ∨ overrideDlnaFeatures = none then
      let mimeType :=
        match env.fetchHeaders with
        | some headers =>
          if headers ≠ [] ∧ pyNotStr overrideMimeType = true ∧
              dictContains headers "Content-Type" = true then
            (dictGet? headers "Content-Type").getD ""
          else mimeType
        | none => mimeType
      let dlnaFeatures :=
        match env.fetchHeaders with
        | some headers =>
          if headers ≠ [] ∧ pyNotStr overrideDlnaFeatures = true ∧
              dictContains headers "ContentFeatures.dlna.org" = true then
            (dictGet? headers "ContentFeatures.dlna.org").getD ""
          else dlnaFeatures
        | none => dlnaFeatures
      let mimeType :=
        if mimeType = "" then
          let guessed := pyOrStr (env.guessType ((pySplit mediaUrl '?').getD 0 "")) ""
          if guessed = "" then pyOrStr defaultMimeType "application/octet-stream"
          else guessed
        else mimeType
      let dlnaFeatures :=
        if pyNotStr overrideDlnaFeatures = true ∧ dlnaFeatures ≠ "*" ∧
            env.getProtocolInfoAction = true then
          if (async_get_sink_protocol_info_for_mime_type env mimeType).any
              (fun entry => entry.getD 3 "" == "*") then "*"
          else dlnaFeatures
        else dlnaFeatures
      (mimeType, dlnaFeatures)
    else (mimeType, dlnaFeatures)
  let classed :=
    if pyNotStr overrideUpnpClass = true then
      let m := pyLower probed.1
      match MIME_TO_UPNP_CLASS_MAPPING.find? (fun p => pyStartsWith m p.1) with
      | some p => (m, p.2)
      | none => (m, pyOrStr defaultUpnpClass "object.item")
    else (probed.1, upnpClass)
  if env.typeByUpnpClass classed.2 = true then
    .ok ⟨classed.1, probed.2, classed.2,
      "http-get:*:" ++ classed.1 ++ ":" ++ probed.2⟩
  else .error "Unknown DIDL-lite type"

/-- **C5.** `construct_play_media_metadata` without overrides: a probe
reporting content type `video/mp4` and no feature header yields a resource
protocol descriptor `http-get:*:video/mp4:*` (ending in `:video/mp4:*`)
with the video item class; a failed probe falls back to extension-based
guessing; a failed guess falls back to the caller default, else to
`application/octet-stream`; a mime type matching no prefix of the class
table resolves to the generic `object.item` class; and a class with no
DIDL-lite item type yields an error. -/
theorem construct_play_media_metadata_spec :
    (∀ (gt : String → Option String) (tc : String → Bool) (gp : Bool)
        (src snk url : String), tc "object.item.videoItem" = true →
      construct_play_media_metadata
          ⟨some [("Content-Type", "video/mp4")], gt, tc, gp, src, snk⟩
          url none none none none none =
        .ok ⟨"video/mp4", "*", "object.item.videoItem",
          "http-get:*:video/mp4:*"⟩) ∧
    (∀ (gt : String → Option String) (tc : String → Bool) (gp : Bool)
        (src snk url : String),
      gt ((pySplit url '?').getD 0 "") = some "audio/mpeg" →
      tc "object.item.audioItem" = true →
      construct_play_media_metadata ⟨none, gt, tc, gp, src, snk⟩
          url none none none none none =
        .ok ⟨"audio/mpeg", "*", "object.item.audioItem",
          "http-get:*:audio/mpeg:*"⟩) ∧
    (∀ (gt : String → Option String) (tc : String → Bool) (gp : Bool)
        (src snk url : String),
      gt ((pySplit url '?').getD 0 "") = none →
      tc "object.item" = true →
      construct_play_media_metadata ⟨none, gt, tc, gp, src, snk⟩
          url none none none none none =
        .ok ⟨"application/octet-stream", "*", "object.item",
          "http-get:*:application/octet-stream:*"⟩) ∧
    (∀ (gt : String → Option String) (tc : String → Bool) (gp : Bool)
        (src snk url : String),
      gt ((pySplit url '?').getD 0 "") = none →
      tc "object.item" = true →
      construct_play_media_metadata ⟨none, gt, tc, gp, src, snk⟩
          url (some "text/plain") none none none none =
        .ok ⟨"text/plain", "*", "object.item", "http-get:*:text/plain:*"⟩) ∧
    (∀ (gt : String → Option String) (tc : String → Bool) (gp : Bool)
        (src snk url : String),
      gt ((pySplit url '?').getD 0 "") = none →
      tc "object.item" = false →
      construct_play_media_metadata ⟨none, gt, tc, gp, src, snk⟩
          url none none none none none =
        .error "Unknown DIDL-lite type") := by
  refine ⟨?_, ?_, ?_, ?_, ?_⟩
  · intro gt tc gp src snk url h2
    have key : construct_play_media_metadata
        ⟨some [("Content-Type", "video/mp4")], gt, tc, gp, src, snk⟩
        url none none none none none =
        if tc "object.item.videoItem" = true then
          .ok ⟨"video/mp4", "*", "object.item.videoItem",
            "http-get:*:video/mp4:*"⟩
        else .error "Unknown DIDL-lite type" := rfl
    rw [key, h2]
    simp
  · intro gt tc gp src snk url hg h2
    simp only [construct_play_media_metadata]
    rw [hg]
    show (if tc "object.item.audioItem" = true then
        Except.ok (⟨"audio/mpeg", "*", "object.item.audioItem",
          "http-get:*:audio/mpeg:*"⟩ : DidlMetadata)
      else Except.error "Unknown DIDL-lite type") = _
    rw [h2]
    simp
  · intro gt tc gp src snk url hg h2
    simp only [construct_play_media_metadata]
    rw [hg]
    show (if tc "object.item" = true then
        Except.ok (⟨"application/octet-stream", "*", "object.item",
          "http-get:*:application/octet-stream:*"⟩ : DidlMetadata)
      else Except.error "Unknown DIDL-lite type") = _
    rw [h2]
    simp
  · intro gt tc gp src snk url hg h2
    simp only [construct_play_media_metadata]
    rw [hg]
    show (if tc "object.item" = true then
        Except.ok (⟨"text/plain", "*", "object.item",
          "http-get:*:text/plain:*"⟩ : DidlMetadata)
      else Except.error "Unknown DIDL-lite type") = _
    rw [h2]
    simp
  · intro gt tc gp src snk url hg h2
    simp only [construct_play_media_metadata]
    rw [hg]
    show (if tc "object.item" = true then
        Except.ok (⟨"application/octet-stream", "*", "object.item",
          "http-get:*:application/octet-stream:*"⟩ : DidlMetadata)
      else Except.error "Unknown DIDL-lite type") = _
    rw [h2]
    simp

/-- Witness for C5: concrete environments exercising the probe result, the
guess fallback, the octet-stream fallback and the unresolvable-class
error. -/
theorem construct_play_media_metadata_spec_witness :
    construct_play_media_metadata
        ⟨some [("Content-Type", "video/mp4")], fun _ => none, fun _ => true,
          false, "", ""⟩ "http://h/x" none none none none none =
      .ok ⟨"video/mp4", "*", "object.item.videoItem",
        "http-get:*:video/mp4:*"⟩ ∧
    construct_play_media_metadata
        ⟨none, fun _ => some "audio/mpeg", fun _ => true, false, "", ""⟩
        "http://h/a.mp3" none none none none none =
      .ok ⟨"audio/mpeg", "*", "object.item.audioItem",
        "http-get:*:audio/mpeg:*"⟩ ∧
    construct_play_media_metadata
        ⟨none, fun _ => none, fun _ => true, false, "", ""⟩
        "http://h/a.bin" none none none none none =
      .ok ⟨"application/octet-stream", "*", "object.item",
        "http-get:*:application/octet-stream:*"⟩ ∧
    construct_play_media_metadata
        ⟨none, fun _ => none, fun _ => false, false, "", ""⟩
        "http://h/a.bin" none none none none none =
      .error "Unknown DIDL-lite type" :=
  ⟨construct_play_media_metadata_spec.1 _ _ false "" "" _ rfl,
    construct_play_media_metadata_spec.2.1 _ _ false "" "" _ rfl rfl,
    construct_play_media_metadata_spec.2.2.1 _ _ false "" "" _ rfl rfl,
    construct_play_media_metadata_spec.2.2.2.2 _ _ false "" "" _ rfl rfl⟩

/-- **C6 (code bug).** `_mime_type sink protocol entries_`: the spec and the
method's own name (`_async_get_sink_protocol_info_for_mime_type`) call for
filtering the device's *Sink* entries, but the body reads
`protocol_info["source"]`. With a device whose Sink advertises the
accept-any entry `http-get:*:audio/mpeg:*` for the resolved mime type while
its Source is empty, the feature string `DLNA.ORG_OP=01` is *not* widened to
`"*"`; placing the same entry in Source instead does widen it. -/
theorem sink_protocol_info_reads_source :
    ((pySplit "http-get:*:audio/mpeg:*" ':').getD 2 "" = "audio/mpeg" ∧
      (pySplit "http-get:*:audio/mpeg:*" ':').getD 3 "" = "*") ∧
    construct_play_media_metadata
        ⟨some [("Content-Type", "audio/mpeg"),
            ("ContentFeatures.dlna.org", "DLNA.ORG_OP=01")],
          fun _ => none, fun _ => true, true, "", "http-get:*:audio/mpeg:*"⟩
        "http://host/track" none none none none none =
      .ok ⟨"audio/mpeg", "DLNA.ORG_OP=01", "object.item.audioItem",
        "http-get:*:audio/mpeg:DLNA.ORG_OP=01"⟩ ∧
    construct_play_media_metadata
        ⟨some [("Content-Type", "audio/mpeg"),
            ("ContentFeatures.dlna.org", "DLNA.ORG_OP=01")],
          fun _ => none, fun _ => true, true, "http-get:*:audio/mpeg:*", ""⟩
        "http://host/track" none none none none none =
      .ok ⟨"audio/mpeg", "*", "object.item.audioItem",
        "http-get:*:audio/mpeg:*"⟩ :=
  ⟨⟨rfl, rfl⟩, rfl, rfl⟩

/-! ## Notification dispatch: `dlna_handle_notify_last_change`
(dlna.py lines 175-199)

The external SAX tokenizer is a parameter turning the raw event text into
the handler's event stream. The result records what the function does:
`forwarded` is the per-variable dictionary passed to
`service.notify_changed_state_variables` (`none` when nothing is forwarded,
so the variable store is left unchanged), `warned` whether the
"Only InstanceID 0 is supported" warning is logged. -/

structure LastChangeStateVar where
  name : String
  value : Option String
deriving DecidableEq

structure NotifyResult where
  forwarded : Option VarDict
  warned : Bool
deriving DecidableEq

def dlna_handle_notify_last_change (tokenize : String → List SaxEvent)
    (sv : LastChangeStateVar) : Except String NotifyResult :=
  if sv.name ≠ "LastChange" then
    .error "Call this only on state variable LastChange"
  else
    match sv.value with
    | none => .ok ⟨none, false⟩
    | some t =>
      if t = "" then .ok ⟨none, false⟩
      else
        let changes := parse_last_change_event (tokenize t)
        if dictContains changes "0" = false then .ok ⟨none, true⟩
        else .ok ⟨dictGet? changes "0", false⟩

lemma dictGet?_eq_none_of_not_contains {α : Type} (d : List (String × α))
    (k : String) (h : dictContains d k = false) : dictGet? d k = none := by
  induction d with
  | nil => rfl
  | cons p d ih =>
    simp only [dictContains, List.any_cons, Bool.or_eq_false_iff] at h
    simp only [dictGet?, List.find?]
    rw [show (decide (p.1 = k)) = false from h.1]
    exact ih (by simp [dictContains, h.2])

/-- **C7 counterexample.** A payload decoding to entries under both
instance `"0"` and instance `"5"`: the instance-`"5"` entries are dropped
(only the instance-`"0"` dictionary is forwarded) but *no* warning is
logged, contradicting the claim that any payload whose ChangeSet contains a
non-`"0"` instance id has its entries ignored *with a logged warning*. -/
theorem notify_mixed_instances_no_warning :
    dictGet? (parse_last_change_event
      [.startEl "Event" ⟨none, none⟩, .startEl "InstanceID" ⟨some "0", none⟩,
        .startEl "A" ⟨some "x", none⟩, .endEl "A", .endEl "InstanceID",
        .startEl "InstanceID" ⟨some "5", none⟩, .startEl "B" ⟨some "y", none⟩,
        .endEl "B", .endEl "InstanceID", .endEl "Event"]) "5" =
      some [("B", "y")] ∧
    dlna_handle_notify_last_change
      (fun _ =>
        [.startEl "Event" ⟨none, none⟩, .startEl "InstanceID" ⟨some "0", none⟩,
          .startEl "A" ⟨some "x", none⟩, .endEl "A", .endEl "InstanceID",
          .startEl "InstanceID" ⟨some "5", none⟩, .startEl "B" ⟨some "y", none⟩,
          .endEl "B", .endEl "InstanceID", .endEl "Event"])
      ⟨"LastChange", some "payload"⟩ =
      .ok ⟨some [("A", "x")], false⟩ :=
  ⟨rfl, rfl⟩

/-- **C7 (amended).** For every nonempty LastChange payload, exactly the
dictionary decoded under instance `"0"` is forwarded to the variable store
(entries under every other instance id are always ignored), and the warning
is logged precisely when instance `"0"` is absent from the decoded
ChangeSet; in particular a payload solely under instance `"5"` forwards
nothing — leaving every cached variable read unchanged — and logs the
warning. -/
theorem notify_forwards_only_instance_zero :
    (∀ (tokenize : String → List SaxEvent) (t : String), t ≠ "" →
      dlna_handle_notify_last_change tokenize ⟨"LastChange", some t⟩ =
        .ok ⟨dictGet? (parse_last_change_event (tokenize t)) "0",
          !dictContains (parse_last_change_event (tokenize t)) "0"⟩) ∧
    dlna_handle_notify_last_change
      (fun _ =>
        [.startEl "Event" ⟨none, none⟩, .startEl "InstanceID" ⟨some "5", none⟩,
          .startEl "B" ⟨some "y", none⟩, .endEl "B", .endEl "InstanceID",
          .endEl "Event"])
      ⟨"LastChange", some "payload"⟩ = .ok ⟨none, true⟩ := by
  constructor
  · intro tokenize t ht
    simp only [dlna_handle_notify_last_change]
    rw [if_neg (by simp)]
    rw [if_neg ht]
    by_cases hc : dictContains (parse_last_change_event (tokenize t)) "0" = false
    · rw [if_pos hc, dictGet?_eq_none_of_not_contains _ _ hc, hc]
      rfl
    · rw [if_neg hc]
      have : dictContains (parse_last_change_event (tokenize t)) "0" = true := by
        simpa using hc
      rw [this]
      rfl
  · rfl

/-- Witness for C7 (amended): a concrete nonempty payload carrying only
instance `"0"` entries is forwarded unchanged with no warning. -/
theorem notify_forwards_only_instance_zero_witness :
    dlna_handle_notify_last_change
      (fun _ =>
        [.startEl "Event" ⟨none, none⟩, .startEl "InstanceID" ⟨some "0", none⟩,
          .startEl "Volume" ⟨some "42", some "Master"⟩, .endEl "Volume",
          .endEl "InstanceID", .endEl "Event"])
      ⟨"LastChange", some "payload"⟩ =
      .ok ⟨some [("Volume", "42")], false⟩ := by
  rw [notify_forwards_only_instance_zero.1 _ "payload" (by decide)]
  rfl

/-! ## Transport command methods: `async_pause` / `async_play` /
`async_stop` / `async_next` / `async_previous` / `async_seek_abs_time` /
`async_seek_rel_time` (dlna.py lines 536-683)

Each method first checks `_can_transport_action`; on failure it logs and
returns (no action invoked, nothing raised). Otherwise a missing AVT action
raises `UpnpError`; else the action is invoked. The seek targets are the
`time_to_str` renderings of the requested positions, taken as given
strings. -/

inductive CmdOutcome
  | noop
  | invoked (action : String) (args : List (String × String))
deriving DecidableEq

def async_pause (d : AvtDevice) : Except String CmdOutcome :=
  if can_transport_action d "pause" = false then .ok .noop
  else if d.pauseAction = false then .error "Missing action AVT/Pause"
  else .ok (.invoked "Pause" [("InstanceID", "0")])

def async_play (d : AvtDevice) : Except String CmdOutcome :=
  if can_transport_action d "play" = false then .ok .noop
  else if d.playAction = false then .error "Missing action AVT/Play"
  else .ok (.invoked "Play" [("InstanceID", "0"), ("Speed", "1")])

def async_stop (d : AvtDevice) : Except String CmdOutcome :=
  if can_transport_action d "stop" = false then .ok .noop
  else if d.stopAction = false then .error "Missing action AVT/Stop"
  else .ok (.invoked "Stop" [("InstanceID", "0")])

def async_next (d : AvtDevice) : Except String CmdOutcome :=
  if can_transport_action d "next" = false then .ok .noop
  else if d.nextAction = false then .error "Missing action AVT/Next"
  else .ok (.invoked "Next" [("InstanceID", "0")])

def async_previous (d : AvtDevice) : Except String CmdOutcome :=
  if can_transport_action d "previous" = false then .ok .noop
  else if d.previousAction = false then .error "Missing action AVT/Previous"
  else .ok (.invoked "Previous" [("InstanceID", "0")])

def async_seek_abs_time (d : AvtDevice) (target : String) :
    Except String CmdOutcome :=
  if can_transport_action d "seek" = false then .ok .noop
  else if d.seekAction = false then .error "Missing action AVT/Seek"
  else .ok (.invoked "Seek"
    [("InstanceID", "0"), ("Unit", "ABS_TIME"), ("Target", target)])

def async_seek_rel_time (d : AvtDevice) (target : String) :
    Except String CmdOutcome :=
  if can_transport_action d "seek" = false then .ok .noop
  else if d.seekAction = false then .error "Missing action AVT/Seek"
  else .ok (.invoked "Seek"
    [("InstanceID", "0"), ("Unit", "REL_TIME"), ("Target", target)])

/-- **C8.** Every transport command method is a silent no-op when its
`_can_transport_action` permission check fails: it neither raises nor
invokes any device action. -/
theorem transport_commands_noop_on_denied_permission :
    ∀ (d : AvtDevice) (target : String),
      (can_transport_action d "pause" = false → async_pause d = .ok .noop) ∧
      (can_transport_action d "play" = false → async_play d = .ok .noop) ∧
      (can_transport_action d "stop" = false → async_stop d = .ok .noop) ∧
      (can_transport_action d "next" = false → async_next d = .ok .noop) ∧
      (can_transport_action d "previous" = false →
        async_previous d = .ok .noop) ∧
      (can_transport_action d "seek" = false →
        async_seek_abs_time d target = .ok .noop ∧
        async_seek_rel_time d target = .ok .noop) := by
  intro d target
  refine ⟨fun h => ?_, fun h => ?_, fun h => ?_, fun h => ?_, fun h => ?_,
    fun h => ⟨?_, ?_⟩⟩ <;>
    simp [async_pause, async_play, async_stop, async_next, async_previous,
      async_seek_abs_time, async_seek_rel_time, h]

/-- Witness for C8: with current-actions list `""` (no action listed) every
command is permitted-check-denied and no-ops, even though every action
exists on the device. -/
theorem transport_commands_noop_witness :
    async_pause ⟨some ⟨some "", none⟩, true, true, true, true, true, true,
        some ["ABS_TIME", "REL_TIME"]⟩ = .ok .noop ∧
    async_play ⟨some ⟨some "", none⟩, true, true, true, true, true, true,
        some ["ABS_TIME", "REL_TIME"]⟩ = .ok .noop ∧
    async_seek_abs_time ⟨some ⟨some "", none⟩, true, true, true, true, true,
        true, some ["ABS_TIME", "REL_TIME"]⟩ "0:00:10" = .ok .noop :=
  ⟨(transport_commands_noop_on_denied_permission _ "0:00:10").1 (by decide),
    (transport_commands_noop_on_denied_permission _ "0:00:10").2.1 (by decide),
    ((transport_commands_noop_on_denied_permission _ "0:00:10").2.2.2.2.2
      (by decide)).1⟩

/-- **C10.** When the permission check passes but the underlying AVT action
is missing, every transport command method raises `UpnpError` instead of
no-opping. -/
theorem transport_commands_raise_on_missing_action :
    ∀ (d : AvtDevice) (target : String),
      (can_transport_action d "pause" = true → d.pauseAction = false →
        async_pause d = .error "Missing action AVT/Pause") ∧
      (can_transport_action d "play" = true → d.playAction = false →
        async_play d = .error "Missing action AVT/Play") ∧
      (can_transport_action d "stop" = true → d.stopAction = false →
        async_stop d = .error "Missing action AVT/Stop") ∧
      (can_transport_action d "next" = true → d.nextAction = false →
        async_next d = .error "Missing action AVT/Next") ∧
      (can_transport_action d "previous" = true → d.previousAction = false →
        async_previous d = .error "Missing action AVT/Previous") ∧
      (can_transport_action d "seek" = true → d.seekAction = false →
        async_seek_abs_time d target = .error "Missing action AVT/Seek" ∧
        async_seek_rel_time d target = .error "Missing action AVT/Seek") := by
  intro d target
  refine ⟨fun h1 h2 => ?_, fun h1 h2 => ?_, fun h1 h2 => ?_, fun h1 h2 => ?_,
    fun h1 h2 => ?_, fun h1 h2 => ⟨?_, ?_⟩⟩ <;>
    simp [async_pause, async_play, async_stop, async_next, async_previous,
      async_seek_abs_time, async_seek_rel_time, h1, h2]

/-- Witness for C10: a device with no current-actions variable (permission
granted by default) and no AVT actions raises on pause and on seek. -/
theorem transport_commands_raise_witness :
    async_pause ⟨none, false, false, false, false, false, false, none⟩ =
      .error "Missing action AVT/Pause" ∧
    async_seek_rel_time ⟨none, false, false, false, false, false, false, none⟩
        "0:00:10" = .error "Missing action AVT/Seek" :=
  ⟨(transport_commands_raise_on_missing_action _ "0:00:10").1
      (by decide) (by decide),
    ((transport_commands_raise_on_missing_action _ "0:00:10").2.2.2.2.2
      (by decide) (by decide)).2⟩

/-! ## Sentinel handling: `media_duration`, `media_position`,
`_update_current_track_meta_data`, and `transport_state` on sentinel values
(dlna.py lines 313-325, 990-1007, 1125-1157)

`str_to_time` (from `async_upnp_client.utils`, not part of the given
sources) and `didl_lite.from_xml_string` are parameters; `media_duration`
and `media_position` fold the parse and the `.seconds` projection into one
`Option Nat`-valued parameter. -/

/-- `DmrDevice.media_duration` (reading `AVT/CurrentTrackDuration`). -/
def media_duration (strToTime : String → Option Nat)
    (sv : Option StrStateVar) : Option Nat :=
  match sv with
  | none => none
  | some v =>
    match v.value with
    | none => none
    | some s =>
      if s = "NOT_IMPLEMENTED" then none
      else
        match strToTime s with
        | none => none
        | some secs => some secs

/-- `DmrDevice.media_position` (reading `AVT/RelativeTimePosition`). -/
def media_position (strToTime : String → Option Nat)
    (sv : Option StrStateVar) : Option Nat :=
  match sv with
  | none => none
  | some v =>
    match v.value with
    | none => none
    | some s =>
      if s = "NOT_IMPLEMENTED" then none
      else
        match strToTime s with
        | none => none
        | some secs => some secs

/-- A decoded `didl_lite` item: only whether it is a `DidlObject` matters to
the cache update. -/
structure DidlItem where
  isDidlObject : Bool
deriving DecidableEq

/-- `DmrDevice._update_current_track_meta_data`: the new value of the
`_current_track_meta_data` cache (always replaced, never merged). -/
def update_current_track_meta_data (fromXml : String → List DidlItem)
    (value : Option String) : Option DidlItem :=
  match value with
  | none => none
  | some xml =>
    if xml = "" ∨ xml = "NOT_IMPLEMENTED" then none
    else
      match fromXml xml with
      | [] => none
      | item :: _ => if item.isDidlObject then some item else none

/-- **C9 counterexample.** The claim fails for `transport_state`: the raw
sentinel `"NOT_IMPLEMENTED"` (and the empty string) yield
`VENDOR_DEFINED`, while an absent variable yields `none` — not the same
result. -/
theorem transport_state_sentinel_not_absent :
    transport_state (some ⟨some "NOT_IMPLEMENTED"⟩) =
      some TransportState.VENDOR_DEFINED ∧
    transport_state (some ⟨some ""⟩) = some TransportState.VENDOR_DEFINED ∧
    transport_state none = none ∧
    transport_state (some ⟨some "NOT_IMPLEMENTED"⟩) ≠ transport_state none := by
  decide

/-- **C9 (amended).** `media_duration` and `media_position` return the
absent result `none` for a missing variable, a valueless variable and the
`"NOT_IMPLEMENTED"` sentinel alike, and for the empty string whenever the
time parser rejects it; the metadata-cache update clears the cache for an
absent value, the empty string and the sentinel alike. But
`transport_state` maps the sentinel and the empty string to
`VENDOR_DEFINED`, not to its absent result `none`. -/
theorem sentinel_and_empty_treated_as_absent :
    (∀ strToTime : String → Option Nat,
      media_duration strToTime none = none ∧
      media_duration strToTime (some ⟨none⟩) = none ∧
      media_duration strToTime (some ⟨some "NOT_IMPLEMENTED"⟩) = none ∧
      (strToTime "" = none → media_duration strToTime (some ⟨some ""⟩) = none) ∧
      media_position strToTime none = none ∧
      media_position strToTime (some ⟨none⟩) = none ∧
      media_position strToTime (some ⟨some "NOT_IMPLEMENTED"⟩) = none ∧
      (strToTime "" = none →
        media_position strToTime (some ⟨some ""⟩) = none)) ∧
    (∀ fromXml : String → List DidlItem,
      update_current_track_meta_data fromXml none = none ∧
      update_current_track_meta_data fromXml (some "") = none ∧
      update_current_track_meta_data fromXml (some "NOT_IMPLEMENTED") = none) ∧
    (transport_state none = none ∧
      transport_state (some ⟨some ""⟩) = some TransportState.VENDOR_DEFINED ∧
      transport_state (some ⟨some "NOT_IMPLEMENTED"⟩) =
        some TransportState.VENDOR_DEFINED) := by
  refine ⟨?_, ?_, by decide⟩
  · intro strToTime
    refine ⟨rfl, rfl, by simp [media_duration], fun h => ?_, rfl, rfl,
      by simp [media_position], fun h => ?_⟩
    · simp [media_duration, h]
    · simp [media_position, h]
  · intro fromXml
    exact ⟨rfl, by simp [update_current_track_meta_data],
      by simp [update_current_track_meta_data]⟩

/-- Witness for C9 (amended): concrete parsers (`str_to_time` rejecting the
empty string, an empty DIDL decode) applied to the amended claim. -/
theorem sentinel_and_empty_treated_as_absent_witness :
    media_duration (fun _ => none) (some ⟨some ""⟩) = none ∧
    media_position (fun _ => none) (some ⟨some ""⟩) = none ∧
    update_current_track_meta_data (fun _ => []) (some "") = none :=
  ⟨(sentinel_and_empty_treated_as_absent.1 (fun _ => none)).2.2.2.1 rfl,
    (sentinel_and_empty_treated_as_absent.1 (fun _ => none)).2.2.2.2.2.2.2 rfl,
    (sentinel_and_empty_treated_as_absent.2.1 (fun _ => [])).2.1⟩

end AsyncUpnpDlna
